import Mathlib

/-!
Shallow embedding of the lending core of the Library-Management-System
repository (library_app): the Book / Member / BorrowRecord / Reservation
data model, the borrow / return operations of `models.py`, the post-save
reservation-promotion hook of `signals.py`, and the web entry points of
`views.py` that drive returns (staff return view and the barcode-scan
return handler).

Modelling conventions:
  * datetimes are integers counting seconds since an arbitrary epoch;
    dates are integers counting days; `dateOf` projects a datetime to its
    date exactly as Python's `datetime.date()` does (floor division);
  * money is an integer number of dollars (the only fine rate in the code
    is the whole-dollar 2.00/day, so no fractional amounts arise in the
    lending core);
  * `available_copies` is an `Int`, not a `Nat`: the Python field is a
    plain integer attribute at the point where `borrow`/`return_book`
    mutate it, so non-negativity is a property to prove, not a typing
    artifact;
  * Django's `post_save` signal fires on every `Book.save()`, so the
    embedded `bookSave` always runs the `handle_book_status_change`
    receiver after storing the new book state;
  * each operation takes a `deliveryOk : Bool` flag standing for the
    success of the outbound e-mail delivery attempted by the notification
    collaborator during that operation, so that theorems can quantify
    over delivery outcomes.
-/

namespace Library

/-- `Book.STATUS_CHOICES` from `models.py`. -/
inductive BStatus
| available
| borrowed
| maintenance
| lost
deriving DecidableEq, Repr

/-- `Member.ROLE_CHOICES` from `models.py`. -/
inductive Role
| guest
| student
| teacher
| staff
| admin
| member
deriving DecidableEq, Repr

/-- `Reservation.status` values (active | fulfilled | cancelled). -/
inductive RStatus
| active
| fulfilled
| cancelled
deriving DecidableEq, Repr

def secondsPerDay : Int := 86400

/-- Project a datetime (seconds) to its calendar date (days), as
`datetime.date()` does. -/
def dateOf (now : Int) : Int := Int.fdiv now secondsPerDay

/-- `timedelta.days` for a difference of two datetimes in seconds:
Python floors toward negative infinity. -/
def tdDays (diff : Int) : Int := Int.fdiv diff secondsPerDay

/-- The `Member` model (`models.py`), restricted to the fields the
lending core reads or writes.  `membership_date` is a date (days);
`fine_balance` is in dollars. -/
structure Member where
  id : Nat
  is_active : Bool
  role : Role
  membership_date : Option Int
  fine_balance : Int
deriving DecidableEq, Repr

/-- `Member.expiration_date`: membership_date + 365 days when present. -/
def Member.expiration_date (m : Member) : Option Int :=
  m.membership_date.map (fun d => d + 365)

/-- `Member.is_membership_valid`: `exp_date >= timezone.now().date()` when
an expiration date exists, else false. -/
def Member.is_membership_valid (m : Member) (today : Int) : Bool :=
  match m.expiration_date with
  | some e => decide (today ≤ e)
  | none => false

/-- `Member.can_borrow`: staff and admin always; others when active with a
valid membership. -/
def Member.can_borrow (m : Member) (today : Int) : Bool :=
  if m.role = Role.staff ∨ m.role = Role.admin then true
  else m.is_active && m.is_membership_valid today

/-- The `Book` model (`models.py`), restricted to the fields the lending
core reads or writes. -/
structure Book where
  id : Nat
  title : String
  status : BStatus
  available_copies : Int
deriving DecidableEq, Repr

/-- `Book.is_available`: `status == 'available' and available_copies > 0`. -/
def Book.is_available (b : Book) : Bool :=
  decide (b.status = BStatus.available) && decide (0 < b.available_copies)

/-- The `BorrowRecord` model (`models.py`).  All datetimes in seconds. -/
structure BorrowRecord where
  id : Nat
  book_id : Nat
  member_id : Nat
  borrow_date : Int
  due_date : Option Int
  return_date : Option Int
deriving DecidableEq, Repr

/-- `BorrowRecord.save`: defaults a missing `due_date` to
`timezone.now() + timedelta(days=14)`; an already-set `due_date` is kept. -/
def BorrowRecord.save (now : Int) (r : BorrowRecord) : BorrowRecord :=
  match r.due_date with
  | none => { r with due_date := some (now + 14 * secondsPerDay) }
  | some _ => r

/-- `BorrowRecord.fine_amount` (`models.py` lines 388-393): when both
`return_date` and `due_date` are set and the return is strictly after the
due date, `(return_date - due_date).days * 2.00`; in every other case
(including an open record) it is `0.00`. -/
def BorrowRecord.fine_amount (r : BorrowRecord) : Int :=
  match r.return_date, r.due_date with
  | some ret, some due =>
      if due < ret then tdDays (ret - due) * 2 else 0
  | _, _ => 0

/-- Modelled from the spec: the `Reservation` model is referenced by
`signals.py`, `forms.py`, `api.py` and `serializers.py` but its class is
absent from `models.py`; the spec gives it a book reference, a member
reference, a `reservation_date` and a `status` among
active | fulfilled | cancelled. -/
structure Reservation where
  id : Nat
  book_id : Nat
  member_id : Nat
  reservation_date : Int
  status : RStatus
deriving DecidableEq, Repr

/-- The mutable world an operation of the lending core touches: one book,
the acting member, the borrow-record table, the reservation table, the
ids handed to the notification collaborator, the error log, and the next
free borrow-record primary key. -/
structure LibState where
  book : Book
  member : Member
  records : List BorrowRecord
  reservations : List Reservation
  notifications : List Nat
  log : List String
  nextRecordId : Nat
deriving DecidableEq, Repr

/-- One step of taking the earliest-dated reservation: keep the earlier of
the accumulator and the next row, preferring the earlier-listed row on
ties. -/
def pickOlder (acc : Option Reservation) (r : Reservation) : Option Reservation :=
  match acc with
  | none => some r
  | some b => if r.reservation_date < b.reservation_date then some r else some b

/-- `Reservation.objects.filter(book=instance, status='active')
.order_by('reservation_date').first()` from `signals.py`: the first-listed
reservation among those for the book that are active and of minimal
`reservation_date`. -/
def oldestActive (bid : Nat) (l : List Reservation) : Option Reservation :=
  (l.filter (fun r => decide (r.book_id = bid) && decide (r.status = RStatus.active))).foldl
    pickOlder none

/-- Modelled from the spec: `send_reservation_available` is imported by
`signals.py` but missing from `utils.py`; per the spec the notification
collaborator is fire-and-forget — on delivery failure it logs and returns
normally, and it never raises. -/
def send_reservation_available (deliveryOk : Bool) (_r : Reservation) : List String :=
  if deliveryOk then [] else ["reservation notification delivery failed"]

/-- The `post_save` receiver `handle_book_status_change` (`signals.py`):
whenever the saved book's status is `available`, promote the oldest active
reservation for it (notify, then mark it fulfilled); otherwise do
nothing. -/
def handle_book_status_change (deliveryOk : Bool) (st : LibState) : LibState :=
  if st.book.status = BStatus.available then
    match oldestActive st.book.id st.reservations with
    | some r =>
        { st with
          notifications := st.notifications ++ [r.id]
          log := st.log ++ send_reservation_available deliveryOk r
          reservations := st.reservations.map
            (fun x => if x.id = r.id then { x with status := RStatus.fulfilled } else x) }
    | none => st
  else st

/-- `Book.save()` together with the `post_save` signal dispatch: store the
new book state, then run `handle_book_status_change`. -/
def bookSave (deliveryOk : Bool) (st : LibState) (b : Book) : LibState :=
  handle_book_status_change deliveryOk { st with book := b }

/-- `BorrowRecord.objects.filter(member=member, return_date__isnull=True)
.count()` from `Book.borrow`. -/
def openCount (st : LibState) : Nat :=
  (st.records.filter
    (fun x => decide (x.member_id = st.member.id) && x.return_date.isNone)).length

/-- The book after `Book.borrow`'s mutation: `available_copies -= 1`, and
`status = 'borrowed'` when the counter reaches 0. -/
def decrementedBook (b : Book) : Book :=
  if b.available_copies - 1 = 0 then
    { b with available_copies := b.available_copies - 1, status := BStatus.borrowed }
  else
    { b with available_copies := b.available_copies - 1 }

/-- `BorrowRecord.objects.create(book=self, member=member)` followed by
the `save` default: the fresh record for this borrow. -/
def newBorrowRecord (st : LibState) (now : Int) : BorrowRecord :=
  BorrowRecord.save now
    { id := st.nextRecordId
      book_id := st.book.id
      member_id := st.member.id
      borrow_date := now
      due_date := none
      return_date := none }

/-- Append the fresh borrow record to the table and bump the key. -/
def addRecord (st : LibState) (now : Int) : LibState × BorrowRecord :=
  ({ st with
      records := st.records ++ [newBorrowRecord st now]
      nextRecordId := st.nextRecordId + 1 },
    newBorrowRecord st now)

/-- `Book.borrow(member)` (`models.py` lines 288-307): reject ineligible
members, then members at the 3-loan cap, then unavailable books; on
success decrement the counter (flipping status at 0), save the book (which
fires the signal), and create the borrow record. -/
def Book.borrow (deliveryOk : Bool) (st : LibState) (now : Int) :
    Except String (LibState × BorrowRecord) :=
  if st.member.can_borrow (dateOf now) = false then
    Except.error "Member cannot borrow books"
  else if 3 ≤ openCount st then
    Except.error "Member has reached the maximum limit of 3 borrowed books"
  else if st.book.is_available then
    Except.ok (addRecord (bookSave deliveryOk st (decrementedBook st.book)) now)
  else
    Except.error "Book not available"

/-- The in-memory borrow record after `Book.return_book` mutates and saves
it: `return_date = timezone.now()`, then `save` (which keeps an existing
`due_date` and defaults a missing one). -/
def closedRecord (now : Int) (r : BorrowRecord) : BorrowRecord :=
  BorrowRecord.save now { r with return_date := some now }

/-- `borrow_record.save()` as a row update: replace the row(s) bearing the
record's primary key. -/
def replaceRecord (l : List BorrowRecord) (r1 : BorrowRecord) : List BorrowRecord :=
  l.map (fun x => if x.id = r1.id then r1 else x)

/-- The book after `Book.return_book`'s mutation: `available_copies += 1`
and `status = 'available'`. -/
def availableAgain (b : Book) : Book :=
  { b with available_copies := b.available_copies + 1, status := BStatus.available }

/-- `Book.return_book(borrow_record)` (`models.py` lines 309-316): reject a
record that is already returned; otherwise stamp `return_date`, save the
record, bump the counter, reset the status and save the book (which fires
the signal). -/
def Book.return_book (deliveryOk : Bool) (st : LibState) (now : Int)
    (r0 : BorrowRecord) : Except String LibState :=
  if r0.return_date.isSome then
    Except.error "Book already returned"
  else
    Except.ok (bookSave deliveryOk
      { st with records := replaceRecord st.records (closedRecord now r0) }
      (availableAgain st.book))

/-- `get_object_or_404(BorrowRecord, pk=borrow_id)` / primary-key lookup. -/
def findRecord (l : List BorrowRecord) (rid : Nat) : Option BorrowRecord :=
  l.find? (fun x => decide (x.id = rid))

/-- A Python numeric value together with its runtime type: the lending
core mixes `decimal.Decimal` (the `fine_balance` DecimalField) and
`float` (the `fine_amount` property, whose branches return
`days_overdue * 2.00` and `0.00`). -/
inductive PyVal where
| pyDecimal (q : Int)
| pyFloat (q : Int)
deriving DecidableEq, Repr

/-- The runtime-typed value of `BorrowRecord.fine_amount`: both branches
of the property produce a Python `float`. -/
def BorrowRecord.fine_amount_py (r : BorrowRecord) : PyVal :=
  PyVal.pyFloat r.fine_amount

/-- Python subtraction `balance - v` for a `decimal.Decimal` balance:
Decimal arithmetic accepts another Decimal but refuses a float operand
with a `TypeError` (`decimal.Decimal` deliberately does not interoperate
with `float`). -/
def decimalSub (balance : Int) (v : PyVal) : Except String Int :=
  match v with
  | PyVal.pyDecimal q => Except.ok (balance - q)
  | PyVal.pyFloat _ =>
      Except.error "TypeError: unsupported operand types for -=: Decimal and float"

/-- Outcome of a web request handler: a normal redirect, a rendered
form-level error message from a caught `ValueError` (state unchanged), a
404 lookup failure, or an uncaught exception escaping the handler — the
carried state is what was already committed when the exception was
raised. -/
inductive ViewResult where
| redirectOk (st : LibState)
| formError (msg : String) (st : LibState)
| notFound (st : LibState)
| crashed (msg : String) (st : LibState)
deriving DecidableEq, Repr

/-- The staff return view `views.return_book` (lines 354-373): fetch the
record, run the model-level return (which commits its mutations), read
the float `borrow.fine_amount` off the mutated in-memory record, and when
positive attempt `member.fine_balance -= fine_amount`, a Decimal-minus-
float operation; its `TypeError` is not a `ValueError`, so it escapes the
handler's except clause with the return already committed and the member
untouched. -/
def return_book_view (deliveryOk : Bool) (st : LibState) (now : Int) (rid : Nat) :
    ViewResult :=
  match findRecord st.records rid with
  | none => ViewResult.notFound st
  | some r0 =>
    match Book.return_book deliveryOk st now r0 with
    | Except.error e => ViewResult.formError e st
    | Except.ok st1 =>
      if 0 < (closedRecord now r0).fine_amount then
        match decimalSub st1.member.fine_balance (closedRecord now r0).fine_amount_py with
        | Except.ok b =>
            ViewResult.redirectOk
              { st1 with member := { st1.member with fine_balance := b } }
        | Except.error e => ViewResult.crashed e st1
      else
        ViewResult.redirectOk st1

/-- `BorrowRecord.objects.filter(book=book, member__user=request.user,
return_date__isnull=True).first()` from the scan handler. -/
def findOpenRecord (st : LibState) : Option BorrowRecord :=
  st.records.find?
    (fun x => decide (x.book_id = st.book.id) && decide (x.member_id = st.member.id)
      && x.return_date.isNone)

/-- The `action == 'return'` branch of `views.scan_barcode` (lines
1279-1311): find the member's open record for the book, run the
model-level return, and report the computed fine in the JSON payload.
The member's `fine_balance` is not touched on this path. -/
def scan_return (deliveryOk : Bool) (st : LibState) (now : Int) :
    Except String (LibState × Int) :=
  match findOpenRecord st with
  | none => Except.error "No active borrow record found for this book"
  | some r0 =>
    match Book.return_book deliveryOk st now r0 with
    | Except.error e => Except.error e
    | Except.ok st1 => Except.ok (st1, (closedRecord now r0).fine_amount)

/-- `views.book_edit` saving a book whose only change is its title: the
form save calls `Book.save()`, which fires the `post_save` signal. -/
def book_edit_title (deliveryOk : Bool) (st : LibState) (t : String) : LibState :=
  bookSave deliveryOk st { st.book with title := t }

/-- One step of a borrow/return history: either a borrow attempt or a
return attempt of a given record; a failed attempt leaves the state
unchanged (the view layer reports the error and performs no mutation). -/
inductive LOp where
| borrowOp (deliveryOk : Bool) (now : Int)
| returnOp (deliveryOk : Bool) (now : Int) (r : BorrowRecord)

def stepOp (st : LibState) : LOp → LibState
| LOp.borrowOp d now =>
    match Book.borrow d st now with
    | Except.ok p => p.1
    | Except.error _ => st
| LOp.returnOp d now r =>
    match Book.return_book d st now r with
    | Except.ok st1 => st1
    | Except.error _ => st

/-- Run a whole borrow/return history. -/
def runOps (st : LibState) (ops : List LOp) : LibState := ops.foldl stepOp st

/-- One borrow-then-return round trip: borrow, then return exactly the
record that borrow created. -/
def cycle (d1 d2 : Bool) (now1 now2 : Int) (st : LibState) : LibState :=
  match Book.borrow d1 st now1 with
  | Except.ok p =>
      match Book.return_book d2 p.1 now2 p.2 with
      | Except.ok st2 => st2
      | Except.error _ => p.1
  | Except.error _ => st

/-- Primary-key discipline of the borrow-record table: every stored id is
below the next free id (Django's autoincrementing primary key). -/
def IdsOk (st : LibState) : Prop := ∀ x ∈ st.records, x.id < st.nextRecordId

/-- Preconditions for a borrow-then-return round trip to run: the member
is eligible and under the loan cap, the book is available, and record ids
are well formed. -/
def CanCycle (st : LibState) (now1 : Int) : Prop :=
  st.member.can_borrow (dateOf now1) = true ∧ openCount st < 3 ∧
  st.book.status = BStatus.available ∧ 0 < st.book.available_copies ∧ IdsOk st

/-- The fine formula exactly as the spec words it, for comparison with the
code: `max(0, ((return_date or now) - due_date).days) * 2.00`, the current
time standing in for a missing `return_date`. -/
def specFineFormula (now : Int) (r : BorrowRecord) (due : Int) : Int :=
  max 0 (tdDays (r.return_date.getD now - due)) * 2

/-- The concrete open overdue record used to compare the code's
`fine_amount` with the spec's formula: due at time 0, never returned. -/
def openOverdueRecord : BorrowRecord :=
  { id := 1, book_id := 1, member_id := 1, borrow_date := 0,
    due_date := some 0, return_date := none }

/-- Erase the error log of a state, for comparing operation results up to
logging. -/
def eraseLog (st : LibState) : LibState := { st with log := [] }

/-- The open one-day-overdue record of the reservation scenarios. -/
def recC3 : BorrowRecord :=
  { id := 1, book_id := 1, member_id := 1, borrow_date := 0,
    due_date := some 0, return_date := none }

/-- Reservation A, filed at time 10 (before B). -/
def resC3A : Reservation :=
  { id := 1, book_id := 1, member_id := 2, reservation_date := 10,
    status := RStatus.active }

/-- Reservation B, filed at time 20 (after A). -/
def resC3B : Reservation :=
  { id := 2, book_id := 1, member_id := 3, reservation_date := 20,
    status := RStatus.active }

/-- An unavailable single-copy book with one open loan and two queued
active reservations, A older than B. -/
def stC3 : LibState :=
  { book := { id := 1, title := "X", status := BStatus.borrowed, available_copies := 0 },
    member := { id := 1, is_active := true, role := Role.member,
                membership_date := some 0, fine_balance := 0 },
    records := [recC3], reservations := [resC3A, resC3B],
    notifications := [], log := [], nextRecordId := 2 }

/-- The sole active reservation of the title-edit scenario. -/
def resC10 : Reservation :=
  { id := 5, book_id := 1, member_id := 2, reservation_date := 7,
    status := RStatus.active }

/-- An already-available book holding an active reservation, about to
receive a title-only edit. -/
def stC10 : LibState :=
  { book := { id := 1, title := "T", status := BStatus.available, available_copies := 2 },
    member := { id := 1, is_active := true, role := Role.member,
                membership_date := some 0, fine_balance := 0 },
    records := [], reservations := [resC10],
    notifications := [], log := [], nextRecordId := 1 }

/-- The open loan of the notification-failure scenario. -/
def rec8 : BorrowRecord :=
  { id := 1, book_id := 1, member_id := 1, borrow_date := 0,
    due_date := some 0, return_date := none }

/-- The reservation promoted during the notification-failure scenario. -/
def res8 : Reservation :=
  { id := 9, book_id := 1, member_id := 2, reservation_date := 3,
    status := RStatus.active }

/-- A borrowed-out book with one open loan and one active reservation. -/
def st8 : LibState :=
  { book := { id := 1, title := "E", status := BStatus.borrowed, available_copies := 0 },
    member := { id := 1, is_active := true, role := Role.member,
                membership_date := some 0, fine_balance := 0 },
    records := [rec8], reservations := [res8],
    notifications := [], log := [], nextRecordId := 2 }

/-- The state after returning the loan of `st8` while the notification
delivery fails: the reservation is still promoted and the failure is
logged. -/
def st8v : LibState :=
  { book := { id := 1, title := "E", status := BStatus.available, available_copies := 1 },
    member := { id := 1, is_active := true, role := Role.member,
                membership_date := some 0, fine_balance := 0 },
    records := [ { id := 1, book_id := 1, member_id := 1, borrow_date := 0,
                   due_date := some 0, return_date := some 86400 } ],
    reservations := [ { id := 9, book_id := 1, member_id := 2, reservation_date := 3,
                        status := RStatus.fulfilled } ],
    notifications := [9],
    log := ["reservation notification delivery failed"],
    nextRecordId := 2 }

/-- A two-copy library with one eligible student member, used to witness
the effects of a successful borrow. -/
def stW5 : LibState :=
  { book := { id := 1, title := "W", status := BStatus.available, available_copies := 2 },
    member := { id := 7, is_active := true, role := Role.student,
                membership_date := some 0, fine_balance := 0 },
    records := [], reservations := [], notifications := [], log := [], nextRecordId := 5 }

/-- The record the witness borrow creates. -/
def rW5 : BorrowRecord :=
  { id := 5, book_id := 1, member_id := 7, borrow_date := 100,
    due_date := some (100 + 14 * secondsPerDay), return_date := none }

/-- The state after the witness borrow. -/
def stW5a : LibState :=
  { stW5 with
      book := { id := 1, title := "W", status := BStatus.available, available_copies := 1 },
      records := [rW5], nextRecordId := 6 }

/-- An eligible member already holding three open loans, facing an
available book. -/
def stCap : LibState :=
  { book := { id := 1, title := "C", status := BStatus.available, available_copies := 1 },
    member := { id := 1, is_active := true, role := Role.member,
                membership_date := some 0, fine_balance := 0 },
    records :=
      [ { id := 1, book_id := 2, member_id := 1, borrow_date := 0,
          due_date := some 10, return_date := none },
        { id := 2, book_id := 3, member_id := 1, borrow_date := 0,
          due_date := some 10, return_date := none },
        { id := 3, book_id := 4, member_id := 1, borrow_date := 0,
          due_date := some 10, return_date := none } ],
    reservations := [], notifications := [], log := [], nextRecordId := 4 }

/-- The same three-open-loan situation for an inactive (ineligible)
member. -/
def stCapIneligible : LibState :=
  { stCap with
      member := { id := 1, is_active := false, role := Role.member,
                  membership_date := some 0, fine_balance := 0 } }

/-- The open loan of the overdue-return scenario, due at time 0. -/
def recC2 : BorrowRecord :=
  { id := 1, book_id := 1, member_id := 1, borrow_date := 0,
    due_date := some 0, return_date := none }

/-- A single-copy library whose only copy is out on an open loan one day
past due, held by the acting member. -/
def stC2 : LibState :=
  { book := { id := 1, title := "X", status := BStatus.borrowed, available_copies := 0 },
    member := { id := 1, is_active := true, role := Role.member,
                membership_date := some 0, fine_balance := 0 },
    records := [recC2],
    reservations := [], notifications := [], log := [], nextRecordId := 2 }

/-- A one-copy library with an eligible member and empty ledger, used for
the history and round-trip witnesses. -/
def stC6 : LibState :=
  { book := { id := 1, title := "N", status := BStatus.available, available_copies := 1 },
    member := { id := 1, is_active := true, role := Role.member,
                membership_date := some 0, fine_balance := 0 },
    records := [], reservations := [], notifications := [], log := [],
    nextRecordId := 1 }

/-- A history that borrows twice (the second attempt fails on the empty
shelf) and then returns an open record. -/
def opsC6 : List LOp :=
  [ LOp.borrowOp true 0,
    LOp.borrowOp true 0,
    LOp.returnOp true 50
      { id := 1, book_id := 1, member_id := 1, borrow_date := 0,
        due_date := some 5, return_date := none } ]

/-- The record the round-trip witness borrow creates. -/
def rC7 : BorrowRecord :=
  { id := 1, book_id := 1, member_id := 1, borrow_date := 0,
    due_date := some (0 + 14 * secondsPerDay), return_date := none }

/-- The witness state after borrowing the single copy. -/
def stC7b : LibState :=
  { stC6 with
      book := { id := 1, title := "N", status := BStatus.borrowed, available_copies := 0 },
      records := [rC7], nextRecordId := 2 }

/-- The witness state after returning the borrowed copy at time 50. -/
def stC7a : LibState :=
  { stC6 with
      book := { id := 1, title := "N", status := BStatus.available, available_copies := 1 },
      records := [{ rC7 with return_date := some 50 }], nextRecordId := 2 }

/-! ### Lemmas about the embedded operations -/

theorem tdDays_eq_ediv (x : Int) : tdDays x = x / 86400 := by
  unfold tdDays secondsPerDay
  exact Int.fdiv_eq_ediv x (by norm_num)

theorem save_return_date (now : Int) (r : BorrowRecord) :
    (BorrowRecord.save now r).return_date = r.return_date := by
  unfold BorrowRecord.save
  cases r.due_date <;> rfl

theorem save_id (now : Int) (r : BorrowRecord) :
    (BorrowRecord.save now r).id = r.id := by
  unfold BorrowRecord.save
  cases r.due_date <;> rfl

theorem save_keeps_due (now : Int) (r : BorrowRecord) (d : Int)
    (h : r.due_date = some d) : (BorrowRecord.save now r).due_date = some d := by
  unfold BorrowRecord.save
  rw [h]
  exact h

theorem closedRecord_id (now : Int) (r : BorrowRecord) :
    (closedRecord now r).id = r.id := by
  unfold closedRecord
  rw [save_id]

theorem closedRecord_return_date (now : Int) (r : BorrowRecord) :
    (closedRecord now r).return_date = some now := by
  unfold closedRecord
  rw [save_return_date]

theorem fine_amount_nonneg (r : BorrowRecord) : 0 ≤ r.fine_amount := by
  unfold BorrowRecord.fine_amount
  rcases r.return_date with _ | ret <;> rcases r.due_date with _ | due <;> simp
  split
  · rw [tdDays_eq_ediv]
    omega
  · exact le_refl 0

theorem hbsc_book (d : Bool) (st : LibState) :
    (handle_book_status_change d st).book = st.book := by
  unfold handle_book_status_change
  split
  · split <;> rfl
  · rfl

theorem hbsc_member (d : Bool) (st : LibState) :
    (handle_book_status_change d st).member = st.member := by
  unfold handle_book_status_change
  split
  · split <;> rfl
  · rfl

theorem hbsc_records (d : Bool) (st : LibState) :
    (handle_book_status_change d st).records = st.records := by
  unfold handle_book_status_change
  split
  · split <;> rfl
  · rfl

theorem hbsc_nextRecordId (d : Bool) (st : LibState) :
    (handle_book_status_change d st).nextRecordId = st.nextRecordId := by
  unfold handle_book_status_change
  split
  · split <;> rfl
  · rfl

theorem bookSave_book (d : Bool) (st : LibState) (b : Book) :
    (bookSave d st b).book = b := by
  unfold bookSave
  rw [hbsc_book]

theorem bookSave_member (d : Bool) (st : LibState) (b : Book) :
    (bookSave d st b).member = st.member := by
  unfold bookSave
  rw [hbsc_member]

theorem bookSave_records (d : Bool) (st : LibState) (b : Book) :
    (bookSave d st b).records = st.records := by
  unfold bookSave
  rw [hbsc_records]

theorem bookSave_nextRecordId (d : Bool) (st : LibState) (b : Book) :
    (bookSave d st b).nextRecordId = st.nextRecordId := by
  unfold bookSave
  rw [hbsc_nextRecordId]

theorem is_available_iff (b : Book) :
    b.is_available = true ↔ (b.status = BStatus.available ∧ 0 < b.available_copies) := by
  unfold Book.is_available
  simp

theorem decrementedBook_copies (b : Book) :
    (decrementedBook b).available_copies = b.available_copies - 1 := by
  unfold decrementedBook
  split <;> rfl

theorem decrementedBook_id (b : Book) : (decrementedBook b).id = b.id := by
  unfold decrementedBook
  split <;> rfl

theorem decrementedBook_status (b : Book) :
    (decrementedBook b).status
      = if b.available_copies - 1 = 0 then BStatus.borrowed else b.status := by
  unfold decrementedBook
  split <;> rfl

theorem addRecord_book (st : LibState) (now : Int) :
    (addRecord st now).1.book = st.book := rfl

theorem addRecord_member (st : LibState) (now : Int) :
    (addRecord st now).1.member = st.member := rfl

theorem addRecord_records (st : LibState) (now : Int) :
    (addRecord st now).1.records = st.records ++ [newBorrowRecord st now] := rfl

theorem addRecord_rec (st : LibState) (now : Int) :
    (addRecord st now).2 = newBorrowRecord st now := rfl

theorem addRecord_next (st : LibState) (now : Int) :
    (addRecord st now).1.nextRecordId = st.nextRecordId + 1 := rfl

theorem newBorrowRecord_due (st : LibState) (now : Int) :
    (newBorrowRecord st now).due_date = some (now + 14 * secondsPerDay) := rfl

theorem newBorrowRecord_return (st : LibState) (now : Int) :
    (newBorrowRecord st now).return_date = none := rfl

theorem newBorrowRecord_id (st : LibState) (now : Int) :
    (newBorrowRecord st now).id = st.nextRecordId := rfl

theorem newBorrowRecord_member_id (st : LibState) (now : Int) :
    (newBorrowRecord st now).member_id = st.member.id := rfl

theorem borrow_ok_iff (d : Bool) (st : LibState) (now : Int) (p : LibState × BorrowRecord) :
    Book.borrow d st now = Except.ok p ↔
      st.member.can_borrow (dateOf now) = true ∧ openCount st < 3 ∧
      st.book.is_available = true ∧
      p = addRecord (bookSave d st (decrementedBook st.book)) now := by
  unfold Book.borrow
  by_cases h1 : st.member.can_borrow (dateOf now) = false
  · rw [if_pos h1]
    constructor
    · intro h
      exact Except.noConfusion h
    · rintro ⟨hcb, -, -, -⟩
      rw [hcb] at h1
      exact Bool.noConfusion h1
  · rw [if_neg h1]
    have h1' : st.member.can_borrow (dateOf now) = true := by
      rcases hcb : st.member.can_borrow (dateOf now) with _ | _
      · exact absurd hcb h1
      · rfl
    by_cases h2 : 3 ≤ openCount st
    · rw [if_pos h2]
      constructor
      · intro h
        exact Except.noConfusion h
      · rintro ⟨-, hlt, -, -⟩
        omega
    · rw [if_neg h2]
      by_cases h3 : st.book.is_available = true
      · rw [if_pos h3]
        constructor
        · intro h
          refine ⟨h1', by omega, h3, ?_⟩
          injection h with h
          exact h.symm
        · rintro ⟨-, -, -, hp⟩
          rw [hp]
      · rw [if_neg h3]
        constructor
        · intro h
          exact Except.noConfusion h
        · rintro ⟨-, -, hav, -⟩
          exact absurd hav h3

theorem availableAgain_copies (b : Book) :
    (availableAgain b).available_copies = b.available_copies + 1 := rfl

theorem availableAgain_status (b : Book) :
    (availableAgain b).status = BStatus.available := rfl

theorem availableAgain_id (b : Book) : (availableAgain b).id = b.id := rfl

theorem return_book_ok (d : Bool) (st : LibState) (now : Int) (r0 : BorrowRecord)
    (h : r0.return_date = none) :
    Book.return_book d st now r0
      = Except.ok (bookSave d
          { st with records := replaceRecord st.records (closedRecord now r0) }
          (availableAgain st.book)) := by
  unfold Book.return_book
  rw [h]
  rfl

theorem return_book_ok_elim (d : Bool) (st : LibState) (now : Int)
    (r0 : BorrowRecord) (st1 : LibState)
    (h : Book.return_book d st now r0 = Except.ok st1) :
    r0.return_date = none ∧
    st1 = bookSave d
      { st with records := replaceRecord st.records (closedRecord now r0) }
      (availableAgain st.book) := by
  unfold Book.return_book at h
  split at h
  next => exact Except.noConfusion h
  next hs =>
    injection h with h
    exact ⟨Option.not_isSome_iff_eq_none.mp hs, h.symm⟩

theorem closedRecord_mem_replace (l : List BorrowRecord) (now : Int)
    (r0 : BorrowRecord) (h : r0 ∈ l) :
    closedRecord now r0 ∈ replaceRecord l (closedRecord now r0) := by
  unfold replaceRecord
  have himg :
      (fun x => if x.id = (closedRecord now r0).id then closedRecord now r0 else x) r0
        = closedRecord now r0 := by
    rw [closedRecord_id]
    simp
  have hmem := List.mem_map_of_mem
    (fun x => if x.id = (closedRecord now r0).id then closedRecord now r0 else x) h
  rwa [himg] at hmem

/-! ### Claims -/

/-- C9: for every book, `is_available` is true if and only if both
`status == 'available'` and `available_copies > 0`: the availability
predicate is the conjunction of the status check and the counter check. -/
theorem c9_is_available_conjunction (b : Book) :
    b.is_available = true ↔ (b.status = BStatus.available ∧ 0 < b.available_copies) :=
  is_available_iff b

/-- C5: a successful borrow decrements `available_copies` by exactly 1,
leaves the status `borrowed` exactly when the counter reached 0, and
creates an open BorrowRecord with `due_date = now + 14 days`; a custom
due date already set on a record survives `BorrowRecord.save`. -/
theorem c5_borrow_effects (d : Bool) (st st1 : LibState) (now : Int) (r : BorrowRecord)
    (h : Book.borrow d st now = Except.ok (st1, r)) :
    st1.book.available_copies = st.book.available_copies - 1 ∧
    (st1.book.status = BStatus.borrowed ↔ st1.book.available_copies = 0) ∧
    r ∈ st1.records ∧ r.return_date = none ∧
    r.due_date = some (now + 14 * secondsPerDay) ∧
    (∀ (now2 : Int) (r2 : BorrowRecord) (dd : Int),
      r2.due_date = some dd → (BorrowRecord.save now2 r2).due_date = some dd) := by
  obtain ⟨hcb, hcnt, hav, hp⟩ := (borrow_ok_iff d st now (st1, r)).mp h
  have h1 : st1 = (addRecord (bookSave d st (decrementedBook st.book)) now).1 :=
    congrArg Prod.fst hp
  have h2 : r = (addRecord (bookSave d st (decrementedBook st.book)) now).2 :=
    congrArg Prod.snd hp
  have hbook : st1.book = decrementedBook st.book := by
    rw [h1, addRecord_book, bookSave_book]
  refine ⟨?_, ?_, ?_, ?_, ?_, fun now2 r2 dd hdd => save_keeps_due now2 r2 dd hdd⟩
  · rw [hbook, decrementedBook_copies]
  · rw [hbook, decrementedBook_status, decrementedBook_copies]
    have hst := ((is_available_iff st.book).mp hav).1
    rw [hst]
    by_cases hc : st.book.available_copies - 1 = 0
    · rw [if_pos hc]
      simp [hc]
    · rw [if_neg hc]
      simp [hc]
  · rw [h1, addRecord_records, h2, addRecord_rec]
    exact List.mem_append_right _ (by simp)
  · rw [h2, addRecord_rec, newBorrowRecord_return]
  · rw [h2, addRecord_rec, newBorrowRecord_due]

/-- C5 witness: in the concrete two-copy library the borrow succeeds, the
counter drops from 2 to 1 and the created record is due 14 days out. -/
theorem c5_witness :
    stW5a.book.available_copies = stW5.book.available_copies - 1 ∧
    rW5.due_date = some (100 + 14 * secondsPerDay) :=
  ⟨(c5_borrow_effects true stW5 stW5a 100 rW5 rfl).1,
   (c5_borrow_effects true stW5 stW5a 100 rW5 rfl).2.2.2.2.1⟩

/-- C4 (amended): a borrow fails exactly when a precondition is violated,
and the error message names the violated rule checked first in the order
eligibility, loan cap, availability; in particular an eligible member at
the 3-loan cap is rejected with the cap-exceeded message, while an
ineligible member is rejected with the ineligibility message even when at
the cap. -/
theorem c4_borrow_error_cases (d : Bool) (st : LibState) (now : Int) :
    (Book.borrow d st now = Except.error "Member cannot borrow books"
        ↔ st.member.can_borrow (dateOf now) = false) ∧
    (Book.borrow d st now
          = Except.error "Member has reached the maximum limit of 3 borrowed books"
        ↔ st.member.can_borrow (dateOf now) = true ∧ 3 ≤ openCount st) ∧
    (Book.borrow d st now = Except.error "Book not available"
        ↔ st.member.can_borrow (dateOf now) = true ∧ openCount st < 3
            ∧ st.book.is_available = false) ∧
    ((∃ p, Book.borrow d st now = Except.ok p)
        ↔ st.member.can_borrow (dateOf now) = true ∧ openCount st < 3
            ∧ st.book.is_available = true) := by
  unfold Book.borrow
  by_cases h1 : st.member.can_borrow (dateOf now) = false
  · rw [if_pos h1]
    refine ⟨⟨fun _ => h1, fun _ => rfl⟩, ?_, ?_, ?_⟩
    · constructor
      · intro h
        injection h with h
        exact absurd h (by decide)
      · rintro ⟨hcb, -⟩
        rw [hcb] at h1
        exact Bool.noConfusion h1
    · constructor
      · intro h
        injection h with h
        exact absurd h (by decide)
      · rintro ⟨hcb, -, -⟩
        rw [hcb] at h1
        exact Bool.noConfusion h1
    · constructor
      · rintro ⟨p, hp⟩
        exact Except.noConfusion hp
      · rintro ⟨hcb, -, -⟩
        rw [hcb] at h1
        exact Bool.noConfusion h1
  · have h1' : st.member.can_borrow (dateOf now) = true := by
      rcases hcb : st.member.can_borrow (dateOf now) with _ | _
      · exact absurd hcb h1
      · rfl
    rw [if_neg h1]
    by_cases h2 : 3 ≤ openCount st
    · rw [if_pos h2]
      refine ⟨?_, ⟨fun _ => ⟨h1', h2⟩, fun _ => rfl⟩, ?_, ?_⟩
      · constructor
        · intro h
          injection h with h
          exact absurd h (by decide)
        · intro hcb
          rw [hcb] at h1'
          exact Bool.noConfusion h1'
      · constructor
        · intro h
          injection h with h
          exact absurd h (by decide)
        · rintro ⟨-, hlt, -⟩
          omega
      · constructor
        · rintro ⟨p, hp⟩
          exact Except.noConfusion hp
        · rintro ⟨-, hlt, -⟩
          omega
    · by_cases h3 : st.book.is_available = true
      · rw [if_neg h2, if_pos h3]
        refine ⟨?_, ?_, ?_, ?_⟩
        · constructor
          · intro h
            exact Except.noConfusion h
          · intro hcb
            rw [hcb] at h1'
            exact Bool.noConfusion h1'
        · constructor
          · intro h
            exact Except.noConfusion h
          · rintro ⟨-, hge⟩
            exact absurd hge h2
        · constructor
          · intro h
            exact Except.noConfusion h
          · rintro ⟨-, -, hav⟩
            rw [hav] at h3
            exact Bool.noConfusion h3
        · exact ⟨fun _ => ⟨h1', by omega, h3⟩, fun _ => ⟨_, rfl⟩⟩
      · have h3' : st.book.is_available = false := by
          rcases hv : st.book.is_available with _ | _
          · rfl
          · exact absurd hv h3
        rw [if_neg h2, if_neg h3]
        refine ⟨?_, ?_, ⟨fun _ => ⟨h1', by omega, h3'⟩, fun _ => rfl⟩, ?_⟩
        · constructor
          · intro h
            injection h with h
            exact absurd h (by decide)
          · intro hcb
            rw [hcb] at h1'
            exact Bool.noConfusion h1'
        · constructor
          · intro h
            injection h with h
            exact absurd h (by decide)
          · rintro ⟨-, hge⟩
            exact absurd hge h2
        · constructor
          · rintro ⟨p, hp⟩
            exact Except.noConfusion hp
          · rintro ⟨-, -, hav⟩
            exact absurd hav h3

/-- C4 witness: the eligible member at the cap is rejected with the
cap-exceeded message. -/
theorem c4_witness :
    Book.borrow true stCap 0
      = Except.error "Member has reached the maximum limit of 3 borrowed books" :=
  ((c4_borrow_error_cases true stCap 0).2.1).mpr ⟨by decide, by decide⟩

/-- C4 counterexample: a member with 3 open BorrowRecords who is also
ineligible is rejected with the ineligibility message, not the
cap-exceeded message the claim demands for every member at the cap. -/
theorem c4_counterexample :
    openCount stCapIneligible = 3 ∧
    Book.borrow true stCapIneligible 0 = Except.error "Member cannot borrow books" ∧
    Book.borrow true stCapIneligible 0
      ≠ Except.error "Member has reached the maximum limit of 3 borrowed books" := by
  refine ⟨by decide, rfl, ?_⟩
  intro h
  rw [show Book.borrow true stCapIneligible 0
      = Except.error "Member cannot borrow books" from rfl] at h
  injection h with h
  exact absurd h (by decide)

/-- C1 (amended): for every BorrowRecord with a non-null `due_date`,
`fine_amount` equals `max(0, (return_date - due_date).days) * 2.00` when
`return_date` is non-null, and equals 0 when the record is open — the
current time is never substituted for a missing `return_date`. -/
theorem c1_fine_amount_closed_only (r : BorrowRecord) (due : Int)
    (h : r.due_date = some due) :
    r.fine_amount =
      match r.return_date with
      | some ret => max 0 (tdDays (ret - due)) * 2
      | none => 0 := by
  unfold BorrowRecord.fine_amount
  rw [h]
  cases hr : r.return_date with
  | none => rfl
  | some ret =>
    show (if due < ret then tdDays (ret - due) * 2 else 0)
        = max 0 (tdDays (ret - due)) * 2
    by_cases hlt : due < ret
    · rw [if_pos hlt]
      have h0 : 0 ≤ tdDays (ret - due) := by
        rw [tdDays_eq_ediv]
        omega
      rw [max_eq_right h0]
    · rw [if_neg hlt]
      have h0 : tdDays (ret - due) ≤ 0 := by
        rw [tdDays_eq_ediv]
        omega
      rw [max_eq_left h0]
      rfl

/-- C1 witness: a record returned five days late pays `5 * 2.00 = 10.00`. -/
theorem c1_witness :
    ({ id := 1, book_id := 1, member_id := 1, borrow_date := 0,
       due_date := some 0, return_date := some (5 * 86400) } : BorrowRecord).fine_amount
        = max 0 (tdDays (5 * 86400 - 0)) * 2 ∧
      max 0 (tdDays ((5 : Int) * 86400 - 0)) * 2 = 10 :=
  ⟨c1_fine_amount_closed_only _ 0 rfl, by decide⟩

/-- C1 counterexample: an open record five days past its due date has
`fine_amount = 0`, while the claim's formula, substituting the current
time for `return_date`, demands `10.00`. -/
theorem c1_counterexample :
    openOverdueRecord.due_date = some 0 ∧
    openOverdueRecord.return_date = none ∧
    openOverdueRecord.fine_amount = 0 ∧
    specFineFormula (5 * 86400) openOverdueRecord 0 = 10 ∧
    openOverdueRecord.fine_amount ≠ specFineFormula (5 * 86400) openOverdueRecord 0 := by
  refine ⟨rfl, rfl, rfl, by decide, by decide⟩

/-- C2: the model-level return commits `return_date = now`, the counter
increment and the `available` status, and the fine is computed from the
overdue interval — but the claimed debit never executes: the staff return
view attempts `member.fine_balance -= fine_amount`, subtracting the float
`fine_amount` from the Decimal `fine_balance`, which raises a `TypeError`
that the handler catches only `ValueError`, so every positive-fine return
crashes after the return was committed with the member untouched; the
barcode-scan return handler never attempts a debit at all. -/
theorem c2_staff_return_type_error (d : Bool) (st : LibState) (now : Int) :
    (∀ rid r0, findRecord st.records rid = some r0 → r0.return_date = none →
        0 < (closedRecord now r0).fine_amount →
        ∃ st1, Book.return_book d st now r0 = Except.ok st1 ∧
          return_book_view d st now rid
            = ViewResult.crashed
                "TypeError: unsupported operand types for -=: Decimal and float" st1 ∧
          st1.member.fine_balance = st.member.fine_balance ∧
          st1.book.available_copies = st.book.available_copies + 1 ∧
          st1.book.status = BStatus.available ∧
          closedRecord now r0 ∈ st1.records ∧
          (closedRecord now r0).return_date = some now) ∧
    (∀ st1 fine, scan_return d st now = Except.ok (st1, fine) →
        st1.member.fine_balance = st.member.fine_balance) := by
  constructor
  · intro rid r0 hf hopen hfine
    have hret := return_book_ok d st now r0 hopen
    refine ⟨_, hret, ?_, ?_, ?_, ?_, ?_, closedRecord_return_date now r0⟩
    · unfold return_book_view
      simp only [hf, hret]
      rw [if_pos hfine]
      rfl
    · rw [bookSave_member]
    · rw [bookSave_book, availableAgain_copies]
    · rw [bookSave_book, availableAgain_status]
    · rw [bookSave_records]
      exact closedRecord_mem_replace st.records now r0 (List.mem_of_find?_eq_some hf)
  · intro st1 fine hv
    unfold scan_return at hv
    cases hf : findOpenRecord st with
    | none =>
      rw [hf] at hv
      exact Except.noConfusion hv
    | some r0 =>
      rw [hf] at hv
      cases hr : Book.return_book d st now r0 with
      | error e =>
        simp only [hr] at hv
        exact Except.noConfusion hv
      | ok stm =>
        simp only [hr] at hv
        injection hv with hv
        have h1 : st1 = stm := (congrArg Prod.fst hv).symm
        obtain ⟨-, hstm⟩ := return_book_ok_elim d st now r0 stm hr
        rw [h1, hstm, bookSave_member]

/-- C2 witness: returning the one-day-overdue loan through the staff view
crashes with the Decimal/float TypeError, leaving the member balance at 0
while the return itself is committed. -/
theorem c2_witness :
    ∃ st1, Book.return_book true stC2 86400 recC2 = Except.ok st1 ∧
      return_book_view true stC2 86400 1
        = ViewResult.crashed
            "TypeError: unsupported operand types for -=: Decimal and float" st1 ∧
      st1.member.fine_balance = stC2.member.fine_balance ∧
      st1.book.available_copies = stC2.book.available_copies + 1 ∧
      st1.book.status = BStatus.available ∧
      closedRecord 86400 recC2 ∈ st1.records ∧
      (closedRecord 86400 recC2).return_date = some 86400 :=
  (c2_staff_return_type_error true stC2 86400).1 1 recC2 rfl rfl (by decide)

theorem stepOp_copies_nonneg (st : LibState) (op : LOp)
    (h : 0 ≤ st.book.available_copies) :
    0 ≤ (stepOp st op).book.available_copies := by
  cases op with
  | borrowOp d now =>
    unfold stepOp
    cases hb : Book.borrow d st now with
    | error e =>
      simp only [hb]
      exact h
    | ok p =>
      simp only [hb]
      obtain ⟨-, -, hav, hp⟩ := (borrow_ok_iff d st now p).mp hb
      have hbk : p.1.book = decrementedBook st.book := by
        rw [hp, addRecord_book, bookSave_book]
      rw [hbk, decrementedBook_copies]
      have hpos := ((is_available_iff st.book).mp hav).2
      omega
  | returnOp d now r =>
    unfold stepOp
    cases hb : Book.return_book d st now r with
    | error e =>
      simp only [hb]
      exact h
    | ok st1 =>
      simp only [hb]
      obtain ⟨-, hst1⟩ := return_book_ok_elim d st now r st1 hb
      rw [hst1, bookSave_book, availableAgain_copies]
      omega

/-- C6: starting from a non-negative `available_copies`, every borrow /
return history leaves it non-negative: a borrow only fires when
`is_available` guarantees a positive counter, and a return increments. -/
theorem c6_copies_nonneg (st : LibState) (ops : List LOp)
    (h : 0 ≤ st.book.available_copies) :
    0 ≤ (runOps st ops).book.available_copies := by
  induction ops generalizing st with
  | nil => exact h
  | cons op t ih => exact ih (stepOp st op) (stepOp_copies_nonneg st op h)

/-- C6 witness: the concrete history keeps the counter non-negative. -/
theorem c6_witness :
    (0 : Int) ≤ stC6.book.available_copies ∧
    0 ≤ (runOps stC6 opsC6).book.available_copies :=
  ⟨by decide, c6_copies_nonneg stC6 opsC6 (by decide)⟩

theorem map_id_of_mem {α : Type} (l : List α) (f : α → α)
    (h : ∀ x ∈ l, f x = x) : l.map f = l := by
  induction l with
  | nil => rfl
  | cons a t ih =>
    simp only [List.map_cons]
    rw [h a (by simp), ih (fun x hx => h x (by simp [hx]))]

theorem cycle_state (d1 d2 : Bool) (now1 now2 : Int) (st : LibState)
    (h : CanCycle st now1) :
    (cycle d1 d2 now1 now2 st).book.available_copies = st.book.available_copies ∧
    (cycle d1 d2 now1 now2 st).book.status = BStatus.available ∧
    (cycle d1 d2 now1 now2 st).member = st.member ∧
    openCount (cycle d1 d2 now1 now2 st) = openCount st ∧
    IdsOk (cycle d1 d2 now1 now2 st) := by
  obtain ⟨hcb, hcnt, hstat, hpos, hids⟩ := h
  have hav : st.book.is_available = true := (is_available_iff st.book).mpr ⟨hstat, hpos⟩
  have hb : Book.borrow d1 st now1
      = Except.ok (addRecord (bookSave d1 st (decrementedBook st.book)) now1) :=
    (borrow_ok_iff d1 st now1 _).mpr ⟨hcb, hcnt, hav, rfl⟩
  have hopen :
      (addRecord (bookSave d1 st (decrementedBook st.book)) now1).2.return_date = none := by
    rw [addRecord_rec]
    exact newBorrowRecord_return _ _
  have hcyc : cycle d1 d2 now1 now2 st
      = bookSave d2
          { (addRecord (bookSave d1 st (decrementedBook st.book)) now1).1 with
              records := replaceRecord
                (addRecord (bookSave d1 st (decrementedBook st.book)) now1).1.records
                (closedRecord now2
                  (addRecord (bookSave d1 st (decrementedBook st.book)) now1).2) }
          (availableAgain
            (addRecord (bookSave d1 st (decrementedBook st.book)) now1).1.book) := by
    unfold cycle
    simp only [hb, return_book_ok d2 _ now2 _ hopen]
  have e1 : (addRecord (bookSave d1 st (decrementedBook st.book)) now1).1.book
      = decrementedBook st.book := by
    rw [addRecord_book, bookSave_book]
  have e2 : (addRecord (bookSave d1 st (decrementedBook st.book)) now1).1.member
      = st.member := by
    rw [addRecord_member, bookSave_member]
  have e3 : (addRecord (bookSave d1 st (decrementedBook st.book)) now1).1.records
      = st.records ++ [(addRecord (bookSave d1 st (decrementedBook st.book)) now1).2] := by
    rw [addRecord_records, bookSave_records, addRecord_rec]
  have e4 : (addRecord (bookSave d1 st (decrementedBook st.book)) now1).1.nextRecordId
      = st.nextRecordId + 1 := by
    rw [addRecord_next, bookSave_nextRecordId]
  have e5 : (addRecord (bookSave d1 st (decrementedBook st.book)) now1).2.id
      = st.nextRecordId := by
    rw [addRecord_rec, newBorrowRecord_id, bookSave_nextRecordId]
  have e7 : replaceRecord
      (st.records ++ [(addRecord (bookSave d1 st (decrementedBook st.book)) now1).2])
      (closedRecord now2 (addRecord (bookSave d1 st (decrementedBook st.book)) now1).2)
      = st.records
        ++ [closedRecord now2 (addRecord (bookSave d1 st (decrementedBook st.book)) now1).2] := by
    unfold replaceRecord
    rw [List.map_append]
    congr 1
    · apply map_id_of_mem
      intro x hx
      have hxid : x.id < st.nextRecordId := hids x hx
      rw [closedRecord_id, e5]
      exact if_neg (by omega)
    · simp only [List.map_cons, List.map_nil]
      rw [closedRecord_id]
      simp
  have hm : (cycle d1 d2 now1 now2 st).member = st.member := by
    rw [hcyc, bookSave_member]
    exact e2
  have hrecs2 : (cycle d1 d2 now1 now2 st).records
      = st.records
        ++ [closedRecord now2 (addRecord (bookSave d1 st (decrementedBook st.book)) now1).2] := by
    rw [hcyc, bookSave_records]
    show replaceRecord
        (addRecord (bookSave d1 st (decrementedBook st.book)) now1).1.records
        (closedRecord now2 (addRecord (bookSave d1 st (decrementedBook st.book)) now1).2) = _
    rw [e3]
    exact e7
  have hnext2 : (cycle d1 d2 now1 now2 st).nextRecordId = st.nextRecordId + 1 := by
    rw [hcyc, bookSave_nextRecordId]
    show (addRecord (bookSave d1 st (decrementedBook st.book)) now1).1.nextRecordId = _
    exact e4
  refine ⟨?_, ?_, hm, ?_, ?_⟩
  · rw [hcyc, bookSave_book, availableAgain_copies, e1, decrementedBook_copies]
    omega
  · rw [hcyc, bookSave_book, availableAgain_status]
  · unfold openCount
    rw [hrecs2, hm, List.filter_append]
    have hcl : (decide ((closedRecord now2
          (addRecord (bookSave d1 st (decrementedBook st.book)) now1).2).member_id
            = st.member.id)
        && (closedRecord now2
          (addRecord (bookSave d1 st (decrementedBook st.book)) now1).2).return_date.isNone)
        = false := by
      rw [closedRecord_return_date]
      simp
    simp [List.filter_cons, hcl]
  · intro x hx
    rw [hrecs2] at hx
    rw [hnext2]
    rcases List.mem_append.mp hx with hl | hr
    · have := hids x hl
      omega
    · have hxeq : x = closedRecord now2
          (addRecord (bookSave d1 st (decrementedBook st.book)) now1).2 := by
        simpa using hr
      rw [hxeq, closedRecord_id, e5]
      omega

theorem cycle_preserves_CanCycle (d1 d2 : Bool) (now1 now2 : Int) (st : LibState)
    (h : CanCycle st now1) : CanCycle (cycle d1 d2 now1 now2 st) now1 := by
  obtain ⟨s1, s2, s3, s4, s5⟩ := cycle_state d1 d2 now1 now2 st h
  obtain ⟨c1, c2, c3, c4, c5⟩ := h
  refine ⟨?_, ?_, s2, ?_, s5⟩
  · rw [s3]
    exact c1
  · rw [s4]
    exact c2
  · rw [s1]
    exact c4

theorem cycleN_copies (d1 d2 : Bool) (now1 now2 : Int) (n : Nat) (st : LibState)
    (h : CanCycle st now1) :
    ((cycle d1 d2 now1 now2)^[n] st).book.available_copies
      = st.book.available_copies := by
  induction n generalizing st with
  | zero => rfl
  | succ n ih =>
    rw [Function.iterate_succ_apply]
    rw [ih (cycle d1 d2 now1 now2 st) (cycle_preserves_CanCycle d1 d2 now1 now2 st h)]
    exact (cycle_state d1 d2 now1 now2 st h).1

/-- C7: a successful borrow followed by the return of the record it
created restores `available_copies`, and any number of borrow-then-return
round trips leaves it unchanged. -/
theorem c7_round_trip (d1 d2 : Bool) (now1 now2 : Int) (st : LibState) :
    (∀ st1 r st2, Book.borrow d1 st now1 = Except.ok (st1, r) →
        Book.return_book d2 st1 now2 r = Except.ok st2 →
        st2.book.available_copies = st.book.available_copies) ∧
    (CanCycle st now1 → ∀ n : Nat,
        ((cycle d1 d2 now1 now2)^[n] st).book.available_copies
          = st.book.available_copies) := by
  constructor
  · intro st1 r st2 hb hr
    obtain ⟨-, -, -, hp⟩ := (borrow_ok_iff d1 st now1 (st1, r)).mp hb
    have hfst : st1 = (addRecord (bookSave d1 st (decrementedBook st.book)) now1).1 :=
      congrArg Prod.fst hp
    have h1 : st1.book = decrementedBook st.book := by
      rw [hfst, addRecord_book, bookSave_book]
    obtain ⟨-, hst2⟩ := return_book_ok_elim d2 st1 now2 r st2 hr
    rw [hst2, bookSave_book, availableAgain_copies, h1, decrementedBook_copies]
    omega
  · intro hcc n
    exact cycleN_copies d1 d2 now1 now2 n st hcc

/-- C7 witness: one concrete round trip restores the counter, and two
iterated round trips leave it unchanged. -/
theorem c7_witness :
    stC7a.book.available_copies = stC6.book.available_copies ∧
    ((cycle true true 0 50)^[2] stC6).book.available_copies
      = stC6.book.available_copies :=
  ⟨(c7_round_trip true true 0 50 stC6).1 stC7b rC7 stC7a rfl rfl,
   (c7_round_trip true true 0 50 stC6).2
     ⟨by decide, by decide, rfl, by decide,
      by intro x hx; exact absurd hx (List.not_mem_nil x)⟩ 2⟩

theorem foldl_pickOlder_keep (t : List Reservation) (b : Reservation)
    (h : ∀ x ∈ t, ¬ x.reservation_date < b.reservation_date) :
    t.foldl pickOlder (some b) = some b := by
  induction t generalizing b with
  | nil => rfl
  | cons a t ih =>
    rw [List.foldl_cons]
    have hred0 : pickOlder (some b) a
        = if a.reservation_date < b.reservation_date then some a else some b := rfl
    have hred : pickOlder (some b) a = some b := by
      rw [hred0, if_neg (h a (by simp))]
    rw [hred]
    exact ih b (fun x hx => h x (by simp [hx]))

theorem foldl_pickOlder_reach (t : List Reservation) (b r : Reservation)
    (hmem : r ∈ t) (hlt : r.reservation_date < b.reservation_date)
    (hmin : ∀ x ∈ t, x ≠ r → r.reservation_date < x.reservation_date) :
    t.foldl pickOlder (some b) = some r := by
  induction t generalizing b with
  | nil => exact absurd hmem (List.not_mem_nil r)
  | cons a t ih =>
    rw [List.foldl_cons]
    by_cases ha : a = r
    · subst ha
      have hred0 : pickOlder (some b) a
          = if a.reservation_date < b.reservation_date then some a else some b := rfl
      have hred : pickOlder (some b) a = some a := by
        rw [hred0, if_pos hlt]
      rw [hred]
      apply foldl_pickOlder_keep
      intro x hx
      by_cases hxr : x = a
      · subst hxr
        omega
      · have := hmin x (by simp [hx]) hxr
        omega
    · have har : r.reservation_date < a.reservation_date := hmin a (by simp) ha
      have hmem2 : r ∈ t := by
        rcases List.mem_cons.mp hmem with h1 | h1
        · exact absurd h1.symm ha
        · exact h1
      have hred : pickOlder (some b) a
          = if a.reservation_date < b.reservation_date then some a else some b := rfl
      rw [hred]
      by_cases hab : a.reservation_date < b.reservation_date
      · rw [if_pos hab]
        exact ih a hmem2 har (fun x hx hxr => hmin x (by simp [hx]) hxr)
      · rw [if_neg hab]
        exact ih b hmem2 hlt (fun x hx hxr => hmin x (by simp [hx]) hxr)

theorem foldl_pickOlder_min (l : List Reservation) (r : Reservation)
    (hmem : r ∈ l)
    (hmin : ∀ x ∈ l, x ≠ r → r.reservation_date < x.reservation_date) :
    l.foldl pickOlder none = some r := by
  cases l with
  | nil => exact absurd hmem (List.not_mem_nil r)
  | cons a t =>
    rw [List.foldl_cons]
    have hred : pickOlder none a = some a := rfl
    rw [hred]
    by_cases ha : a = r
    · subst ha
      apply foldl_pickOlder_keep
      intro x hx
      by_cases hxr : x = a
      · subst hxr
        omega
      · have := hmin x (by simp [hx]) hxr
        omega
    · have hmem2 : r ∈ t := by
        rcases List.mem_cons.mp hmem with h1 | h1
        · exact absurd h1.symm ha
        · exact h1
      exact foldl_pickOlder_reach t a r hmem2 (hmin a (by simp) ha)
        (fun x hx hxr => hmin x (by simp [hx]) hxr)

theorem oldestActive_eq (bid : Nat) (l : List Reservation) (r : Reservation)
    (hmem : r ∈ l) (hb : r.book_id = bid) (ha : r.status = RStatus.active)
    (hmin : ∀ x ∈ l, x.book_id = bid → x.status = RStatus.active → x ≠ r →
        r.reservation_date < x.reservation_date) :
    oldestActive bid l = some r := by
  unfold oldestActive
  apply foldl_pickOlder_min
  · rw [List.mem_filter]
    refine ⟨hmem, ?_⟩
    simp [hb, ha]
  · intro x hx hxr
    rw [List.mem_filter] at hx
    obtain ⟨hx1, hx2⟩ := hx
    simp only [Bool.and_eq_true, decide_eq_true_eq] at hx2
    exact hmin x hx1 hx2.1 hx2.2 hxr

theorem hbsc_promote (d : Bool) (S : LibState) (r : Reservation)
    (hst : S.book.status = BStatus.available)
    (hold : oldestActive S.book.id S.reservations = some r) :
    handle_book_status_change d S
      = { S with
          notifications := S.notifications ++ [r.id]
          log := S.log ++ send_reservation_available d r
          reservations := S.reservations.map
            (fun x => if x.id = r.id then { x with status := RStatus.fulfilled } else x) } := by
  unfold handle_book_status_change
  rw [if_pos hst]
  simp only [hold]

/-- C3: whenever a return makes a book available and a strictly oldest
active reservation exists among at least two active reservations for the
book, exactly that reservation is marked fulfilled (after the
notification collaborator is invoked with its id) and every other
reservation is kept unchanged, so all other active ones stay active. -/
theorem c3_oldest_reservation_promoted (d : Bool) (st : LibState) (now : Int)
    (r0 : BorrowRecord) (r : Reservation)
    (hopen : r0.return_date = none)
    (hmem : r ∈ st.reservations)
    (hbid : r.book_id = st.book.id)
    (hact : r.status = RStatus.active)
    (hold : ∀ x ∈ st.reservations, x.book_id = st.book.id → x.status = RStatus.active →
        x ≠ r → r.reservation_date < x.reservation_date)
    (hnodup : (st.reservations.map (fun x => x.id)).Nodup)
    (_htwo : ∃ x ∈ st.reservations, x ≠ r ∧ x.book_id = st.book.id
        ∧ x.status = RStatus.active) :
    ∃ st1, Book.return_book d st now r0 = Except.ok st1 ∧
      st1.reservations = st.reservations.map
        (fun x => if x.id = r.id then { x with status := RStatus.fulfilled } else x) ∧
      (∀ x ∈ st.reservations, x ≠ r → x ∈ st1.reservations) ∧
      st1.notifications = st.notifications ++ [r.id] := by
  have hret := return_book_ok d st now r0 hopen
  have holdact : oldestActive
      ({ { st with records := replaceRecord st.records (closedRecord now r0) } with
          book := availableAgain st.book }).book.id
      ({ { st with records := replaceRecord st.records (closedRecord now r0) } with
          book := availableAgain st.book }).reservations = some r := by
    show oldestActive (availableAgain st.book).id st.reservations = some r
    rw [availableAgain_id]
    exact oldestActive_eq st.book.id st.reservations r hmem hbid hact hold
  have hh := hbsc_promote d
    { { st with records := replaceRecord st.records (closedRecord now r0) } with
        book := availableAgain st.book } r (availableAgain_status st.book) holdact
  refine ⟨_, hret, ?_, ?_, ?_⟩
  · show (handle_book_status_change d _).reservations = _
    rw [hh]
  · intro x hx hne
    show x ∈ (handle_book_status_change d _).reservations
    rw [hh]
    have hid : x.id ≠ r.id := fun he =>
      hne (List.inj_on_of_nodup_map hnodup hx hmem he)
    have himg :
        (fun y => if y.id = r.id then { y with status := RStatus.fulfilled } else y) x
          = x := if_neg hid
    have hmm := List.mem_map_of_mem
      (fun y => if y.id = r.id then { y with status := RStatus.fulfilled } else y) hx
    rwa [himg] at hmm
  · show (handle_book_status_change d _).notifications = _
    rw [hh]

/-- C3 witness: returning the sole open loan of the doubly-reserved book
fulfills reservation A (filed first) and leaves reservation B active. -/
theorem c3_witness :
    ∃ st1, Book.return_book true stC3 86400 recC3 = Except.ok st1 ∧
      st1.reservations = stC3.reservations.map
        (fun x => if x.id = resC3A.id then { x with status := RStatus.fulfilled } else x) ∧
      (∀ x ∈ stC3.reservations, x ≠ resC3A → x ∈ st1.reservations) ∧
      st1.notifications = stC3.notifications ++ [resC3A.id] :=
  c3_oldest_reservation_promoted true stC3 86400 recC3 resC3A rfl (by decide) rfl rfl
    (by decide) (by decide) ⟨resC3B, by decide, by decide, rfl, rfl⟩

/-- C10: the promotion hook runs on every save of a book whose status is
`available`, not only on transitions: a title-only edit of an
already-available book with a strictly oldest active reservation promotes
that reservation. -/
theorem c10_promotion_on_title_edit (d : Bool) (st : LibState) (t : String)
    (r : Reservation)
    (hst : st.book.status = BStatus.available)
    (hmem : r ∈ st.reservations)
    (hbid : r.book_id = st.book.id)
    (hact : r.status = RStatus.active)
    (hold : ∀ x ∈ st.reservations, x.book_id = st.book.id → x.status = RStatus.active →
        x ≠ r → r.reservation_date < x.reservation_date) :
    (book_edit_title d st t).reservations
      = st.reservations.map
          (fun x => if x.id = r.id then { x with status := RStatus.fulfilled } else x) ∧
    (book_edit_title d st t).book.status = BStatus.available ∧
    (book_edit_title d st t).book.title = t ∧
    (book_edit_title d st t).notifications = st.notifications ++ [r.id] := by
  have holdact : oldestActive
      ({ st with book := { st.book with title := t } }).book.id
      ({ st with book := { st.book with title := t } }).reservations = some r := by
    show oldestActive st.book.id st.reservations = some r
    exact oldestActive_eq st.book.id st.reservations r hmem hbid hact hold
  have hh := hbsc_promote d { st with book := { st.book with title := t } } r hst holdact
  refine ⟨?_, ?_, ?_, ?_⟩
  · show (handle_book_status_change d _).reservations = _
    rw [hh]
  · show (handle_book_status_change d _).book.status = _
    rw [hh]
    exact hst
  · show (handle_book_status_change d _).book.title = _
    rw [hh]
  · show (handle_book_status_change d _).notifications = _
    rw [hh]

/-- C10 witness: renaming the already-available reserved book promotes
its sole active reservation without touching the status. -/
theorem c10_witness :
    (book_edit_title true stC10 "Renamed").reservations
      = stC10.reservations.map
          (fun x => if x.id = resC10.id then { x with status := RStatus.fulfilled } else x) ∧
    (book_edit_title true stC10 "Renamed").book.status = BStatus.available ∧
    (book_edit_title true stC10 "Renamed").book.title = "Renamed" ∧
    (book_edit_title true stC10 "Renamed").notifications = stC10.notifications ++ [resC10.id] :=
  c10_promotion_on_title_edit true stC10 "Renamed" resC10 rfl (by decide) rfl rfl (by decide)

theorem eraseLog_hbsc (d : Bool) (st : LibState) :
    eraseLog (handle_book_status_change d st)
      = eraseLog (handle_book_status_change true st) := by
  unfold handle_book_status_change
  split
  · split <;> rfl
  · rfl

/-- C8: the reservation-fulfillment notification is fire-and-forget: the
return operation's outcome and resulting state (up to the log) do not
depend on whether delivery succeeds, and when a promotion happens under a
failed delivery the failure is recorded in the log. -/
theorem c8_notification_fire_and_forget (st : LibState) (now : Int) (r0 : BorrowRecord) :
    (∀ d : Bool, (Book.return_book d st now r0).map eraseLog
        = (Book.return_book true st now r0).map eraseLog) ∧
    (∀ d : Bool, (Book.return_book d st now r0).isOk
        = (Book.return_book true st now r0).isOk) ∧
    (∀ st1, Book.return_book false st now r0 = Except.ok st1 →
        st1.notifications ≠ st.notifications →
        st1.log = st.log ++ ["reservation notification delivery failed"]) := by
  refine ⟨?_, ?_, ?_⟩
  · intro d
    unfold Book.return_book
    split
    · rfl
    · show Except.ok (eraseLog (bookSave d _ _)) = Except.ok (eraseLog (bookSave true _ _))
      unfold bookSave
      exact congrArg Except.ok (eraseLog_hbsc d _)
  · intro d
    unfold Book.return_book
    split
    · rfl
    · rfl
  · intro st1 h hne
    obtain ⟨-, hst1⟩ := return_book_ok_elim false st now r0 st1 h
    unfold bookSave at hst1
    cases ho : oldestActive
        ({ { st with records := replaceRecord st.records (closedRecord now r0) } with
            book := availableAgain st.book }).book.id
        ({ { st with records := replaceRecord st.records (closedRecord now r0) } with
            book := availableAgain st.book }).reservations with
    | none =>
      exfalso
      apply hne
      rw [hst1]
      unfold handle_book_status_change
      rw [if_pos (availableAgain_status st.book)]
      simp only [ho]
    | some r =>
      rw [hst1]
      unfold handle_book_status_change
      rw [if_pos (availableAgain_status st.book)]
      simp only [ho]
      rfl

/-- C8 witness: returning the reserved book while the notification
delivery fails still promotes the reservation and appends the failure to
the log. -/
theorem c8_witness :
    st8v.log = st8.log ++ ["reservation notification delivery failed"] :=
  (c8_notification_fire_and_forget st8 86400 rec8).2.2 st8v rfl (by decide)

end Library
